import Mathlib

/-!
Verification of the PKI URL configuration handler
(src/builtin/logical/pki/path_config_urls.go).

The stored record is the `urlEntries` struct; the store holds at most one
record under the fixed key "urls", modelled as an `Option urlEntries`.
The write handler `pathWriteURL` takes the current store content and the
three optional request fields (mirroring framework.FieldData.GetOk) and
returns the store content after the operation together with the error
response, if any.  The read handler `pathReadURL` takes the result of
Storage.Get and returns the response.
-/

namespace PKI

/-- The persisted record (struct urlEntries in the source): three ordered
lists of URL strings. -/
@[ext]
structure urlEntries where
  IssuingCertificates : List String
  CRLDistributionPoints : List String
  OCSPServers : List String
deriving Repr, DecidableEq

/-- Characters accepted by the generic URL grammar (RFC 3986 unreserved,
gen-delims, sub-delims and the percent sign). -/
def isURLChar (ch : Char) : Bool :=
  ch.isAlphanum || ("-._~:/?#@!$&()*+,;=%[]".data.contains ch)

/-- Modelled from the spec: the URL parser (Go net/url.Parse, outside this
repository).  Per the spec a string is a syntactically parseable URL unless
it contains characters invalid per the URL grammar; on failure the parser
reports an error. -/
def urlParseErr (s : String) : Option String :=
  if s.data.all isURLChar then none else some "invalid characters in URL"

/-- validateURLs from the source: returns the first element failing URL
parsing together with the parser error, or success. -/
def validateURLs : List String → Option (String × String)
  | [] => none
  | u :: rest =>
    match urlParseErr u with
    | some e => some (u, e)
    | none => validateURLs rest

/-- strings.Split(s, ",") from the source: the substrings of s between
commas, in order; no trimming.  An empty input yields one empty element. -/
def splitCommaAux : List Char → List Char → List String
  | [], acc => [String.mk acc.reverse]
  | ch :: rest, acc =>
    if ch = ',' then String.mk acc.reverse :: splitCommaAux rest []
    else splitCommaAux rest (ch :: acc)

def splitComma (s : String) : List String :=
  splitCommaAux s.data []

/-- The default record built by pathWriteURL when no record exists yet. -/
def defaultEntries : urlEntries :=
  { IssuingCertificates := [], CRLDistributionPoints := [], OCSPServers := [] }

/-- The record pathWriteURL works on: the loaded one, or the default. -/
def loadOrDefault : Option urlEntries → urlEntries
  | none => defaultEntries
  | some e => e

/-- The issuing_certificates branch of pathWriteURL.  NOTE: as in the
source, it validates entries.CRLDistributionPoints, not the list it just
set (the apparent copy-paste defect flagged by the spec). -/
def issuingStep (input : Option String) (e : urlEntries) : Except String urlEntries :=
  match input with
  | none => Except.ok e
  | some s =>
    let e1 := { e with IssuingCertificates := splitComma s }
    match validateURLs e1.CRLDistributionPoints with
    | some (bad, err) =>
      Except.error ("invalid URL found in issuing certificates; url is "
        ++ bad ++ ", error is " ++ err)
    | none => Except.ok e1

/-- The crl_distribution_points branch of pathWriteURL: validates the list
it just set. -/
def crlStep (input : Option String) (e : urlEntries) : Except String urlEntries :=
  match input with
  | none => Except.ok e
  | some s =>
    let e1 := { e with CRLDistributionPoints := splitComma s }
    match validateURLs e1.CRLDistributionPoints with
    | some (bad, err) =>
      Except.error ("invalid URL found in CRL distribution points; url is "
        ++ bad ++ ", error is " ++ err)
    | none => Except.ok e1

/-- The ocsp_servers branch of pathWriteURL.  NOTE: as in the source, it
validates entries.CRLDistributionPoints, not the list it just set. -/
def ocspStep (input : Option String) (e : urlEntries) : Except String urlEntries :=
  match input with
  | none => Except.ok e
  | some s =>
    let e1 := { e with OCSPServers := splitComma s }
    match validateURLs e1.CRLDistributionPoints with
    | some (bad, err) =>
      Except.error ("invalid URL found in OCSP servers; url is "
        ++ bad ++ ", error is " ++ err)
    | none => Except.ok e1

/-- Outcome of a write: the store content afterwards and the error
response (logical.ErrorResponse message), none on success. -/
structure WriteResult where
  store : Option urlEntries
  resp : Option String
deriving Repr, DecidableEq

/-- The body of pathWriteURL after loading: the three field branches in
order, with early return on validation failure. -/
def writeChain (issuing crl ocsp : Option String) (e : urlEntries) :
    Except String urlEntries :=
  (issuingStep issuing e).bind (fun e1 => (crlStep crl e1).bind (ocspStep ocsp))

/-- pathWriteURL from the source: load (default when absent), run the
three field branches in order with early return on validation failure,
then Save the merged record; on failure nothing is saved. -/
def pathWriteURL (store : Option urlEntries) (issuing crl ocsp : Option String) :
    WriteResult :=
  match writeChain issuing crl ocsp (loadOrDefault store) with
  | Except.error m => { store := store, resp := some m }
  | Except.ok e => { store := some e, resp := none }

/-- getURLs from the source: propagate a storage error, report absence as
ok-none, decode a present entry (decoding of a well-typed record does not
fail in the model). -/
def getURLs (g : Except String (Option urlEntries)) : Except String (Option urlEntries) :=
  match g with
  | Except.error e => Except.error e
  | Except.ok none => Except.ok none
  | Except.ok (some es) => Except.ok (some es)

/-- pathReadURL from the source: on getURLs error return the error, on
absence return the empty response, otherwise the record verbatim (the
structs map holds exactly the three fields). -/
def pathReadURL (g : Except String (Option urlEntries)) : Except String (Option urlEntries) :=
  match getURLs g with
  | Except.error e => Except.error e
  | Except.ok none => Except.ok none
  | Except.ok (some es) => Except.ok (some es)

/-- Value of one field after a write: the comma-split of the input when
the field was specified, the old value otherwise. -/
def mergeField (input : Option String) (old : List String) : List String :=
  match input with
  | none => old
  | some s => splitComma s

/-- Field-wise description of the record a successful write persists: each
specified field is replaced by the comma-split of its input string, the
other fields keep their loaded values. -/
def mergeEntries (issuing crl ocsp : Option String) (e : urlEntries) : urlEntries :=
  { IssuingCertificates := mergeField issuing e.IssuingCertificates,
    CRLDistributionPoints := mergeField crl e.CRLDistributionPoints,
    OCSPServers := mergeField ocsp e.OCSPServers }

/-- The CRL distribution points list as it stands once the crl branch has
run: the new comma-split value when that field was specified, the loaded
value otherwise.  This is the list the issuing and ocsp branches of the
source validate. -/
def crlAfter (crl : Option String) (e : urlEntries) : List String :=
  mergeField crl e.CRLDistributionPoints

/-- Store contents producible by the handler itself: the initial absent
record, and the result of any write on a producible store. -/
inductive reachableStore : Option urlEntries → Prop
  | init : reachableStore none
  | step (s : Option urlEntries) (i c o : Option String) :
      reachableStore s → reachableStore (pathWriteURL s i c o).store


theorem writeChain_ok_intro (i c o : Option String) (e0 : urlEntries)
    (h1 : i.isSome = true → validateURLs e0.CRLDistributionPoints = none)
    (h2 : c.isSome = true → validateURLs (crlAfter c e0) = none)
    (h3 : o.isSome = true → validateURLs (crlAfter c e0) = none) :
    writeChain i c o e0 = Except.ok (mergeEntries i c o e0) := by
  cases e0 with
  | mk a b d =>
    cases i <;> cases c <;> cases o <;>
      simp_all [writeChain, issuingStep, crlStep, ocspStep, Except.bind,
        mergeEntries, mergeField, crlAfter]

theorem issuingStep_ok_elim (i : Option String) (e e1 : urlEntries)
    (h : issuingStep i e = Except.ok e1) :
    e1.IssuingCertificates = mergeField i e.IssuingCertificates ∧
    e1.CRLDistributionPoints = e.CRLDistributionPoints ∧
    e1.OCSPServers = e.OCSPServers ∧
    (i.isSome = true → validateURLs e.CRLDistributionPoints = none) := by
  cases i with
  | none =>
    simp [issuingStep] at h
    simp [h.symm, mergeField]
  | some s =>
    simp [issuingStep] at h
    split at h <;> simp_all [mergeField]
    exact ⟨h.symm ▸ rfl, h.symm ▸ rfl, h.symm ▸ rfl⟩

theorem crlStep_ok_elim (c : Option String) (e e2 : urlEntries)
    (h : crlStep c e = Except.ok e2) :
    e2.IssuingCertificates = e.IssuingCertificates ∧
    e2.CRLDistributionPoints = crlAfter c e ∧
    e2.OCSPServers = e.OCSPServers ∧
    (c.isSome = true → validateURLs (crlAfter c e) = none) := by
  cases c with
  | none =>
    simp [crlStep] at h
    simp [h.symm, crlAfter, mergeField]
  | some s =>
    simp [crlStep] at h
    split at h <;> simp_all [crlAfter, mergeField]
    exact ⟨h.symm ▸ rfl, h.symm ▸ rfl, h.symm ▸ rfl⟩

theorem ocspStep_ok_elim (o : Option String) (e e3 : urlEntries)
    (h : ocspStep o e = Except.ok e3) :
    e3.IssuingCertificates = e.IssuingCertificates ∧
    e3.CRLDistributionPoints = e.CRLDistributionPoints ∧
    e3.OCSPServers = mergeField o e.OCSPServers ∧
    (o.isSome = true → validateURLs e.CRLDistributionPoints = none) := by
  cases o with
  | none =>
    simp [ocspStep] at h
    simp [h.symm, mergeField]
  | some s =>
    simp [ocspStep] at h
    split at h <;> simp_all [mergeField]
    exact ⟨h.symm ▸ rfl, h.symm ▸ rfl, h.symm ▸ rfl⟩

theorem crlAfter_congr (c : Option String) (e f : urlEntries)
    (h : e.CRLDistributionPoints = f.CRLDistributionPoints) :
    crlAfter c e = crlAfter c f := by
  cases c <;> simp [crlAfter, mergeField, h]

theorem writeChain_ok_elim (i c o : Option String) (e0 e3 : urlEntries)
    (h : writeChain i c o e0 = Except.ok e3) :
    e3 = mergeEntries i c o e0 ∧
    (i.isSome = true → validateURLs e0.CRLDistributionPoints = none) ∧
    (c.isSome = true → validateURLs (crlAfter c e0) = none) ∧
    (o.isSome = true → validateURLs (crlAfter c e0) = none) := by
  unfold writeChain at h
  cases hi : issuingStep i e0 with
  | error m =>
    rw [hi] at h
    simp [Except.bind] at h
  | ok e1 =>
    rw [hi] at h
    simp only [Except.bind] at h
    cases hc : crlStep c e1 with
    | error m =>
      rw [hc] at h
      simp at h
    | ok e2 =>
      rw [hc] at h
      simp only [] at h
      obtain ⟨hi1, hi2, hi3, hv1⟩ := issuingStep_ok_elim i e0 e1 hi
      obtain ⟨hc1, hc2, hc3, hv2⟩ := crlStep_ok_elim c e1 e2 hc
      obtain ⟨ho1, ho2, ho3, hv3⟩ := ocspStep_ok_elim o e2 e3 h
      have hca : crlAfter c e1 = crlAfter c e0 := crlAfter_congr c e1 e0 hi2
      refine ⟨?_, ?_, ?_, ?_⟩
      · ext
        · rw [ho1, hc1, hi1]
          rfl
        · rw [ho2, hc2, hca]
          rfl
        · rw [ho3, hc3, hi3]
          rfl
      · exact hv1
      · intro hs
        exact hca ▸ hv2 hs
      · intro hs
        have := hv3 hs
        rw [hc2, hca] at this
        exact this



theorem pathWriteURL_err (store : Option urlEntries) (i c o : Option String) (m : String)
    (h : writeChain i c o (loadOrDefault store) = Except.error m) :
    pathWriteURL store i c o = { store := store, resp := some m } := by
  simp [pathWriteURL, h]

theorem pathWriteURL_ok (store : Option urlEntries) (i c o : Option String) (e : urlEntries)
    (h : writeChain i c o (loadOrDefault store) = Except.ok e) :
    pathWriteURL store i c o = { store := some e, resp := none } := by
  simp [pathWriteURL, h]

theorem reachable_crl_valid (s : Option urlEntries) (h : reachableStore s) :
    validateURLs (loadOrDefault s).CRLDistributionPoints = none := by
  induction h with
  | init => rfl
  | step s i c o hs ih =>
    cases hch : writeChain i c o (loadOrDefault s) with
    | error m =>
      rw [pathWriteURL_err s i c o m hch]
      exact ih
    | ok e3 =>
      rw [pathWriteURL_ok s i c o e3 hch]
      obtain ⟨hm, h1, h2, h3⟩ := writeChain_ok_elim i c o (loadOrDefault s) e3 hch
      have hcrl : e3.CRLDistributionPoints = crlAfter c (loadOrDefault s) := by
        rw [hm]
        rfl
      show validateURLs e3.CRLDistributionPoints = none
      rw [hcrl]
      cases c with
      | none => exact ih
      | some sc => exact h2 rfl



/-- Claim C1: the spec requires every write that specifies
issuing_certificates or ocsp_servers to validate every element of the new
list supplied for that same field, independent of the
crl_distribution_points list.  The code instead validates the CRL
distribution points list in those branches: with an empty store, writing
ocsp_servers = "not a url!!" is accepted and persisted with no error even
though the resulting ocsp_servers list fails URL parsing. -/
theorem ocspWriteSkipsOwnFieldValidation :
    (pathWriteURL none none none (some "not a url!!")).resp = none ∧
    (pathWriteURL none none none (some "not a url!!")).store =
      some { IssuingCertificates := [], CRLDistributionPoints := [],
             OCSPServers := ["not a url!!"] } ∧
    validateURLs ["not a url!!"] ≠ none := by
  decide

/-- Claim C2: the spec says a write whose specified field has an element
failing URL parsing must not be saved and must report a validation error.
The code instead calls Save: writing issuing_certificates = "bad url!!"
over a stored record succeeds with no error response and replaces the
stored record, although the new issuing list fails URL parsing. -/
theorem issuingWriteSavesDespiteInvalidElement :
    pathWriteURL
        (some { IssuingCertificates := ["http://old"], CRLDistributionPoints := [],
                OCSPServers := [] })
        (some "bad url!!") none none =
      { store := some { IssuingCertificates := ["bad url!!"],
                        CRLDistributionPoints := [], OCSPServers := [] },
        resp := none } ∧
    urlParseErr "bad url!!" ≠ none ∧
    (some { IssuingCertificates := ["bad url!!"], CRLDistributionPoints := [],
            OCSPServers := [] } : Option urlEntries) ≠
      some { IssuingCertificates := ["http://old"], CRLDistributionPoints := [],
             OCSPServers := [] } := by
  decide

/-- Claim C3: the spec says writing ocsp_servers = "not a url!!" returns a
validation error and leaves the stored record identical to its pre-write
value.  The code accepts the write: the ocsp branch validates the CRL
distribution points list instead of the new ocsp list, so the invalid
value is persisted, replacing the prior record, with no error response. -/
theorem ocspNotAUrlWriteIsPersisted :
    pathWriteURL
        (some { IssuingCertificates := [], CRLDistributionPoints := [],
                OCSPServers := ["http://old"] })
        none none (some "not a url!!") =
      { store := some { IssuingCertificates := [], CRLDistributionPoints := [],
                        OCSPServers := ["not a url!!"] },
        resp := none } ∧
    urlParseErr "not a url!!" ≠ none ∧
    (some { IssuingCertificates := [], CRLDistributionPoints := [],
            OCSPServers := ["not a url!!"] } : Option urlEntries) ≠
      some { IssuingCertificates := [], CRLDistributionPoints := [],
             OCSPServers := ["http://old"] } := by
  decide

/-- Claim C4 counterexample: the claim says each comma-separated token is
trimmed of surrounding whitespace before becoming a list element; the code
performs no trimming, so writing issuing_certificates with the input
"http://a, http://b" stores the second token with its leading space. -/
theorem writeDoesNotTrimTokens :
    (pathWriteURL none (some "http://a, http://b") none none).store =
      some { IssuingCertificates := ["http://a", " http://b"],
             CRLDistributionPoints := [], OCSPServers := [] } ∧
    (["http://a", " http://b"] : List String) ≠ ["http://a", "http://b"] := by
  decide

/-- Claim C4 (amended): for every write and every specified field, the
input string is split on the comma and the tokens become the stored list
for that field verbatim and in input order, with no trimming. -/
theorem writeStoresSplitTokensVerbatim (store : Option urlEntries)
    (i c o : Option String) (e : urlEntries)
    (h : (pathWriteURL store i c o).resp = none)
    (hs : (pathWriteURL store i c o).store = some e) :
    (∀ s, i = some s → e.IssuingCertificates = splitComma s) ∧
    (∀ s, c = some s → e.CRLDistributionPoints = splitComma s) ∧
    (∀ s, o = some s → e.OCSPServers = splitComma s) := by
  cases hch : writeChain i c o (loadOrDefault store) with
  | error m =>
    rw [pathWriteURL_err store i c o m hch] at h
    simp at h
  | ok e3 =>
    rw [pathWriteURL_ok store i c o e3 hch] at hs
    have he : e3 = e := by simpa using hs
    subst he
    obtain ⟨hm, _, _, _⟩ := writeChain_ok_elim i c o (loadOrDefault store) e3 hch
    refine ⟨fun s hsi => ?_, fun s hsc => ?_, fun s hso => ?_⟩ <;>
      subst_vars <;> rfl

theorem writeStoresSplitTokensVerbatimWitness :
    (∀ s, (some "http://a, http://b" : Option String) = some s →
      ({ IssuingCertificates := ["http://a", " http://b"],
         CRLDistributionPoints := [], OCSPServers := [] } :
        urlEntries).IssuingCertificates = splitComma s) ∧
    (∀ s, (none : Option String) = some s →
      ({ IssuingCertificates := ["http://a", " http://b"],
         CRLDistributionPoints := [], OCSPServers := [] } :
        urlEntries).CRLDistributionPoints = splitComma s) ∧
    (∀ s, (none : Option String) = some s →
      ({ IssuingCertificates := ["http://a", " http://b"],
         CRLDistributionPoints := [], OCSPServers := [] } :
        urlEntries).OCSPServers = splitComma s) :=
  writeStoresSplitTokensVerbatim none (some "http://a, http://b") none none
    { IssuingCertificates := ["http://a", " http://b"],
      CRLDistributionPoints := [], OCSPServers := [] }
    (by decide) (by decide)

/-- Claim C5: every field the write request does not specify keeps, in the
persisted record, the value loaded before the write, or the empty list
when no record previously existed; only specified fields are replaced. -/
theorem writePreservesUnspecifiedFields (store : Option urlEntries)
    (i c o : Option String) (e : urlEntries)
    (h : (pathWriteURL store i c o).store = some e) :
    (i = none → e.IssuingCertificates = (loadOrDefault store).IssuingCertificates) ∧
    (c = none → e.CRLDistributionPoints = (loadOrDefault store).CRLDistributionPoints) ∧
    (o = none → e.OCSPServers = (loadOrDefault store).OCSPServers) := by
  cases hch : writeChain i c o (loadOrDefault store) with
  | error m =>
    rw [pathWriteURL_err store i c o m hch] at h
    have hstore : store = some e := h
    subst hstore
    exact ⟨fun _ => rfl, fun _ => rfl, fun _ => rfl⟩
  | ok e3 =>
    rw [pathWriteURL_ok store i c o e3 hch] at h
    have he : e3 = e := by simpa using h
    subst he
    obtain ⟨hm, _, _, _⟩ := writeChain_ok_elim i c o (loadOrDefault store) e3 hch
    refine ⟨fun hi => ?_, fun hc => ?_, fun ho => ?_⟩ <;>
      subst_vars <;> rfl

theorem writePreservesUnspecifiedFieldsWitness :
    ((none : Option String) = none →
      ({ IssuingCertificates := [], CRLDistributionPoints := [""],
         OCSPServers := [] } : urlEntries).IssuingCertificates =
        (loadOrDefault none).IssuingCertificates) ∧
    ((some "" : Option String) = none →
      ({ IssuingCertificates := [], CRLDistributionPoints := [""],
         OCSPServers := [] } : urlEntries).CRLDistributionPoints =
        (loadOrDefault none).CRLDistributionPoints) ∧
    ((none : Option String) = none →
      ({ IssuingCertificates := [], CRLDistributionPoints := [""],
         OCSPServers := [] } : urlEntries).OCSPServers =
        (loadOrDefault none).OCSPServers) :=
  writePreservesUnspecifiedFields none none (some "") none
    { IssuingCertificates := [], CRLDistributionPoints := [""], OCSPServers := [] }
    (by decide)



/-- Claim C6: over any store the handler can have produced, writing
issuing_certificates = "http://a,http://b" succeeds, and reading back
returns exactly that two-element list for issuing_certificates while the
CRL distribution points and OCSP servers fields keep their prior values. -/
theorem writeIssuingRoundtrip (s : Option urlEntries) (h : reachableStore s) :
    (pathWriteURL s (some "http://a,http://b") none none).resp = none ∧
    (pathWriteURL s (some "http://a,http://b") none none).store =
      some { IssuingCertificates := ["http://a", "http://b"],
             CRLDistributionPoints := (loadOrDefault s).CRLDistributionPoints,
             OCSPServers := (loadOrDefault s).OCSPServers } ∧
    pathReadURL (Except.ok ((pathWriteURL s (some "http://a,http://b") none none).store)) =
      Except.ok (some { IssuingCertificates := ["http://a", "http://b"],
                        CRLDistributionPoints := (loadOrDefault s).CRLDistributionPoints,
                        OCSPServers := (loadOrDefault s).OCSPServers }) := by
  have hv := reachable_crl_valid s h
  have hch := writeChain_ok_intro (some "http://a,http://b") none none (loadOrDefault s)
    (fun _ => hv) (fun _ => hv) (fun _ => hv)
  have hmerge : mergeEntries (some "http://a,http://b") none none (loadOrDefault s) =
      { IssuingCertificates := ["http://a", "http://b"],
        CRLDistributionPoints := (loadOrDefault s).CRLDistributionPoints,
        OCSPServers := (loadOrDefault s).OCSPServers } := by
    have hsplit : splitComma "http://a,http://b" = ["http://a", "http://b"] := by decide
    simp [mergeEntries, mergeField, hsplit]
  rw [pathWriteURL_ok s (some "http://a,http://b") none none _ (hmerge ▸ hch)]
  exact ⟨rfl, rfl, rfl⟩

theorem writeIssuingRoundtripWitness :
    (pathWriteURL none (some "http://a,http://b") none none).resp = none ∧
    (pathWriteURL none (some "http://a,http://b") none none).store =
      some { IssuingCertificates := ["http://a", "http://b"],
             CRLDistributionPoints := (loadOrDefault none).CRLDistributionPoints,
             OCSPServers := (loadOrDefault none).OCSPServers } ∧
    pathReadURL (Except.ok ((pathWriteURL none (some "http://a,http://b") none none).store)) =
      Except.ok (some { IssuingCertificates := ["http://a", "http://b"],
                        CRLDistributionPoints := (loadOrDefault none).CRLDistributionPoints,
                        OCSPServers := (loadOrDefault none).OCSPServers }) :=
  writeIssuingRoundtrip none reachableStore.init

/-- Claim C7: reading when no record has ever been written and the store
itself does not fail returns the empty result and no error; absence of the
record is not reported as an error. -/
theorem readAbsentReturnsEmptyNoError :
    pathReadURL (Except.ok none) = Except.ok none := rfl

/-- Claim C8: writing the empty string for crl_distribution_points
succeeds for any store content, and the field reads back as a list holding
exactly one empty-string element, not as an empty list. -/
theorem writeEmptyCrlReadsBackSingleEmpty (store : Option urlEntries) :
    (pathWriteURL store none (some "") none).resp = none ∧
    (pathWriteURL store none (some "") none).store =
      some { IssuingCertificates := (loadOrDefault store).IssuingCertificates,
             CRLDistributionPoints := [""],
             OCSPServers := (loadOrDefault store).OCSPServers } ∧
    pathReadURL (Except.ok ((pathWriteURL store none (some "") none).store)) =
      Except.ok (some { IssuingCertificates := (loadOrDefault store).IssuingCertificates,
                        CRLDistributionPoints := [""],
                        OCSPServers := (loadOrDefault store).OCSPServers }) ∧
    ([""] : List String) ≠ [] := by
  have hvempty : validateURLs (crlAfter (some "") (loadOrDefault store)) = none := by
    show validateURLs (splitComma "") = none
    decide
  have himp : ((none : Option String).isSome = true) →
      validateURLs (loadOrDefault store).CRLDistributionPoints = none := by
    intro hx
    simp at hx
  have hch := writeChain_ok_intro none (some "") none (loadOrDefault store)
    himp (fun _ => hvempty) (fun _ => hvempty)
  have hmerge : mergeEntries none (some "") none (loadOrDefault store) =
      { IssuingCertificates := (loadOrDefault store).IssuingCertificates,
        CRLDistributionPoints := [""],
        OCSPServers := (loadOrDefault store).OCSPServers } := by
    have hsplit : splitComma "" = [""] := by decide
    simp [mergeEntries, mergeField, hsplit]
  rw [pathWriteURL_ok store none (some "") none _ (hmerge ▸ hch)]
  exact ⟨rfl, rfl, rfl, by simp⟩

/-- Claim C9: the write operation is idempotent on the stored state: for
every store content and every write input, running the same write twice in
succession leaves the store holding the same record as running it once. -/
theorem writeIdempotentOnStore (s : Option urlEntries) (i c o : Option String) :
    (pathWriteURL (pathWriteURL s i c o).store i c o).store =
      (pathWriteURL s i c o).store := by
  cases hch : writeChain i c o (loadOrDefault s) with
  | error m =>
    rw [pathWriteURL_err s i c o m hch]
    show (pathWriteURL s i c o).store = s
    rw [pathWriteURL_err s i c o m hch]
  | ok e3 =>
    rw [pathWriteURL_ok s i c o e3 hch]
    show (pathWriteURL (some e3) i c o).store = some e3
    obtain ⟨hm, h1, h2, h3⟩ := writeChain_ok_elim i c o (loadOrDefault s) e3 hch
    have hcrl : e3.CRLDistributionPoints = crlAfter c (loadOrDefault s) := by
      rw [hm]
      rfl
    have hca2 : crlAfter c e3 = crlAfter c (loadOrDefault s) := by
      cases c with
      | none => exact hcrl
      | some sc => rfl
    have cond1 : i.isSome = true → validateURLs e3.CRLDistributionPoints = none := by
      intro hs
      rw [hcrl]
      cases c with
      | none => exact h1 hs
      | some sc => exact h2 rfl
    have cond2 : c.isSome = true → validateURLs (crlAfter c e3) = none := by
      intro hs
      rw [hca2]
      exact h2 hs
    have cond3 : o.isSome = true → validateURLs (crlAfter c e3) = none := by
      intro hs
      rw [hca2]
      exact h3 hs
    have hme : mergeEntries i c o e3 = e3 := by
      rw [hm]
      cases i <;> cases c <;> cases o <;> rfl
    have hch2 := writeChain_ok_intro i c o e3 cond1 cond2 cond3
    rw [hme] at hch2
    rw [pathWriteURL_ok (some e3) i c o e3 hch2]

/-- Claim C10: a write that specifies none of the three fields still
performs a Save: starting from an empty store it persists a record whose
three lists are all empty, and a subsequent read returns that present
record rather than the empty result. -/
theorem writeNoFieldsSavesDefaultRecord :
    pathWriteURL none none none none =
      { store := some defaultEntries, resp := none } ∧
    defaultEntries.IssuingCertificates = [] ∧
    defaultEntries.CRLDistributionPoints = [] ∧
    defaultEntries.OCSPServers = [] ∧
    pathReadURL (Except.ok (some defaultEntries)) = Except.ok (some defaultEntries) ∧
    (Except.ok (some defaultEntries) : Except String (Option urlEntries)) ≠
      Except.ok none := by
  refine ⟨rfl, rfl, rfl, rfl, rfl, ?_⟩
  simp


end PKI
